import Mathlib

/-
Verification development for the svc-summary service.

The service accepts a lecture transcription (inline text or a URL to a JSON
transcript), produces a summary through an external chat-completion endpoint,
persists it, and serves it back by lecture id.  The definitions below are a
shallow embedding of the JavaScript source:

  - index file (src/unnamed/part_001): the Express handlers
    (GET and POST on /api/lectures/:lectureId/summary), the helper
    retrieveJsonTranscription, saveSummary, the setImmediate job body, and
    the NATS "transcriptions.completed" handler;
  - src/summary.js: generateSummary (the Hugging Face client) and
    subscribeJson (the per-message NATS subscription loop);
  - the Prisma Summary table (id, lecture_id, summary_text, timestamp).

External calls (fetch, NATS decode, prisma.create) are modelled as oracles so
each theorem quantifies over their outcomes; every modelled function returns
the list of observable effects it performs together with its JS result, where
a thrown JS exception is an Except.error.
-/

/-- JSON values as produced by JSON.parse / response.json().  Numbers are
modelled as integers, which covers every value the claims exercise. -/
inductive Json where
  | null : Json
  | bool : Bool → Json
  | num : Int → Json
  | str : String → Json
  | arr : List Json → Json
  | obj : List (String × Json) → Json

/-- JavaScript exceptions thrown by the modelled code.  `error` is a plain
new Error(message); `typeError`, `referenceError` are the corresponding
builtin classes; `parseError` stands for the SyntaxError thrown by
JSON.parse and response.json() on invalid JSON. -/
inductive JsErr where
  | error : String → JsErr
  | typeError : String → JsErr
  | referenceError : String → JsErr
  | parseError : String → JsErr

/-- The message property of a JS error, as read by err.message. -/
def JsErr.message : JsErr → String
  | .error m => m
  | .typeError m => m
  | .referenceError m => m
  | .parseError m => m

mutual
/-- String(v) coercion for a JSON value, as used by JS template literals and
Array.prototype.toString. -/
def jsToString : Json → String
  | .null => "null"
  | .bool b => cond b "true" "false"
  | .num n => toString n
  | .str s => s
  | .arr xs => jsArrJoin xs
  | .obj _ => "[object Object]"

/-- Array.prototype.join with separator ",", where null elements coerce to
the empty string (Array.prototype.toString semantics). -/
def jsArrJoin : List Json → String
  | [] => ""
  | [x] => match x with
    | .null => ""
    | x => jsToString x
  | x :: y :: xs =>
    (match x with
      | .null => ""
      | x => jsToString x) ++ "," ++ jsArrJoin (y :: xs)
end

/-- Element coercion used by Array.prototype.join: undefined (modelled as
none) and null coerce to the empty string, other values to String(v). -/
def joinElemStr : Option Json → String
  | none => ""
  | some .null => ""
  | some j => jsToString j

/-- Template-literal coercion of a possibly-undefined JS value, as in
the logged string for lecture ids taken off a bus message. -/
def jsDisplay : Option Json → String
  | none => "undefined"
  | some j => jsToString j

/-- Property access v.k on a proper JSON value: objects yield the first
binding of the key (undefined when absent, modelled as none); accessing a
property of null throws a TypeError; primitives and arrays yield undefined
for the property names this service reads. -/
def jsGet : Json → String → Except JsErr (Option Json)
  | .null, k => .error (.typeError ("Cannot read properties of null reading " ++ k))
  | .obj fields, k => .ok (fields.lookup k)
  | _, _ => .ok none

/-- Property access on a possibly-undefined value: accessing a property of
undefined throws a TypeError. -/
def jsGetOpt : Option Json → String → Except JsErr (Option Json)
  | none, k => .error (.typeError ("Cannot read properties of undefined reading " ++ k))
  | some j, k => jsGet j k

/-- Index access v[n] on a possibly-undefined value: arrays index into their
elements, objects fall back to the stringified key, strings index into their
characters; indexing undefined or null throws a TypeError. -/
def jsIndexOpt : Option Json → Nat → Except JsErr (Option Json)
  | none, _ => .error (.typeError "Cannot read properties of undefined reading index")
  | some .null, _ => .error (.typeError "Cannot read properties of null reading index")
  | some (.arr xs), n => .ok xs[n]?
  | some (.obj fields), n => .ok (fields.lookup (toString n))
  | some (.str s), n => .ok ((s.toList[n]?).map (fun c => Json.str (String.singleton c)))
  | some (.num _), _ => .ok none
  | some (.bool _), _ => .ok none

/-- A settled fetch Response: status, statusText and the outcome of
response.json() on its body (Except.error is the SyntaxError raised on a
non-JSON body). -/
structure FetchResponse where
  status : Nat
  statusText : String
  jsonBody : Except String Json

/-- Response.ok from the fetch specification: status in the 2xx range. -/
def FetchResponse.ok (r : FetchResponse) : Bool :=
  decide (200 ≤ r.status) && decide (r.status < 300)

/-- Observable effects of one service run: network fetches of transcript
URLs, calls to the summarizer endpoint, prisma.summary.create calls, and
log lines (logError optionally carries the JS error object passed to
logger.error). -/
inductive Effect where
  | fetch : String → Effect
  | summarizerCall : String → Effect
  | save : Option Json → Option Json → Effect
  | logInfo : String → Effect
  | logError : Option JsErr → String → Effect

/-- Oracles for the external world: the result of fetch on a transcript URL,
the result of fetch on the summarizer endpoint for a given transcript (an
Except.error is a rejected fetch), and the outcome of
prisma.summary.create for given lecture id and summary text. -/
structure Env where
  fetchTranscript : String → Except JsErr FetchResponse
  summarizerResp : String → Except JsErr FetchResponse
  saveResult : Option Json → Option Json → Except JsErr Unit

/-- The body of data.map(entry => entry.text) from retrieveJsonTranscription:
JS map evaluates left to right and the first thrown TypeError (an element
being null) aborts; an absent text field yields undefined (none). -/
def mapTexts : List Json → Except JsErr (List (Option Json))
  | [] => .ok []
  | e :: es =>
    match jsGet e "text" with
    | .error err => .error err
    | .ok v =>
      match mapTexts es with
      | .error err => .error err
      | .ok vs => .ok (v :: vs)

/-- Embedding of retrieveJsonTranscription(jsonUrl) from the index file:
fetch the URL, throw on a non-ok status, parse the body, then
data.map(entry => entry.text).join("\n").  The argument is the JS value
passed at the call site; fetch of undefined or of a non-string throws a
TypeError before any network activity. -/
def retrieveJsonTranscription (env : Env) (jsonUrl : Option Json) :
    List Effect × Except JsErr String :=
  match jsonUrl with
  | none => ([], .error (.typeError "Failed to parse URL from undefined"))
  | some (.str u) =>
    (match env.fetchTranscript u with
     | .error e => ([Effect.fetch u], .error e)
     | .ok resp =>
       if resp.ok then
         match resp.jsonBody with
         | .error m => ([Effect.fetch u], .error (.parseError m))
         | .ok (.arr entries) =>
           match mapTexts entries with
           | .error err => ([Effect.fetch u], .error err)
           | .ok lines =>
             ([Effect.fetch u], .ok (String.intercalate "\n" (lines.map joinElemStr)))
         | .ok _ => ([Effect.fetch u], .error (.typeError "data.map is not a function"))
       else
         ([Effect.fetch u],
          .error (.error ("Failed to fetch transcription JSON: " ++
            toString resp.status ++ " " ++ resp.statusText))))
  | some _ => ([], .error (.typeError "Failed to parse URL"))

/-- Message of the error thrown (and logged) by generateSummary on a non-2xx
summarizer response; it carries the status code and the reason phrase. -/
def summarizerApiErrorMessage (status : Nat) (statusText : String) : String :=
  "Hugging Face API error: " ++ toString status ++ " " ++ statusText

/-- The error thrown by generateSummary on a non-2xx summarizer response;
the spec names it SummarizerApiError. -/
def summarizerApiError (status : Nat) (statusText : String) : JsErr :=
  .error (summarizerApiErrorMessage status statusText)

/-- Classification of the errors the spec groups under SummarizerFormatError:
the TypeErrors thrown while reading data.choices[0].message.content and the
SyntaxError thrown by response.json() on a non-JSON 2xx body. -/
def isSummarizerFormatError : JsErr → Bool
  | .typeError _ => true
  | .parseError _ => true
  | _ => false

/-- The read of data.choices[0].message.content from generateSummary, with
JS property-access semantics at each step: a read on undefined or null
throws a TypeError, an absent final content yields undefined. -/
def choicesContent (data : Json) : Except JsErr (Option Json) :=
  match jsGet data "choices" with
  | .error e => .error e
  | .ok choices =>
    match jsIndexOpt choices 0 with
    | .error e => .error e
    | .ok first =>
      match jsGetOpt first "message" with
      | .error e => .error e
      | .ok msg => jsGetOpt msg "content"

/-- Embedding of generateSummary(transcription) from src/summary.js: POST the
transcript to the configured endpoint; on a non-ok status log and throw; on
an ok status parse the body and return data.choices[0].message.content. -/
def generateSummary (env : Env) (transcription : String) :
    List Effect × Except JsErr (Option Json) :=
  match env.summarizerResp transcription with
  | .error e => ([Effect.summarizerCall transcription], .error e)
  | .ok resp =>
    if resp.ok then
      match resp.jsonBody with
      | .error m => ([Effect.summarizerCall transcription], .error (.parseError m))
      | .ok data => ([Effect.summarizerCall transcription], choicesContent data)
    else
      ([Effect.summarizerCall transcription,
        Effect.logError none (summarizerApiErrorMessage resp.status resp.statusText)],
       .error (summarizerApiError resp.status resp.statusText))

/-- A row of the Prisma Summary table (the SQL migration in the repository):
id is the primary key, lecture_id is not unique, timestamp is set at insert
time.  Timestamps are modelled as naturals. -/
structure SummaryRow where
  id : String
  lecture_id : String
  summary_text : String
  timestamp : Nat
deriving DecidableEq

/-- The row prisma findFirst with orderBy timestamp desc returns on an
already-filtered list: the row with the maximal timestamp, the earliest
listed one winning ties (a stable descending order). -/
def latestRow : List SummaryRow → Option SummaryRow
  | [] => none
  | r :: rs =>
    match latestRow rs with
    | none => some r
    | some b => if b.timestamp > r.timestamp then some b else some r

/-- Embedding of the prisma.summary.findFirst call in the GET handler:
filter the table by lecture_id and take the first row in descending
timestamp order. -/
def prismaFindFirstLatest (db : List SummaryRow) (lectureId : String) : Option SummaryRow :=
  latestRow (db.filter (fun r => r.lecture_id == lectureId))

/-- An HTTP response produced by a handler: its status code and JSON body. -/
structure ApiResponse where
  status : Nat
  body : Json

/-- Embedding of the GET /api/lectures/:lectureId/summary handler body given
the outcome of the prisma query: a thrown query is answered 500, an empty
result 404, and a row 200 with its summary_text. -/
def getSummaryHandler (queryResult : Except JsErr (Option SummaryRow)) : ApiResponse :=
  match queryResult with
  | .error _ => ⟨500, .obj [("error", .str "Failed to fetch summary")]⟩
  | .ok none => ⟨404, .obj [("error", .str "Summary not found")]⟩
  | .ok (some row) => ⟨200, .obj [("summary", .str row.summary_text)]⟩

/-- The GET read path against a healthy store holding the rows db. -/
def getSummary (db : List SummaryRow) (lectureId : String) : ApiResponse :=
  getSummaryHandler (.ok (prismaFindFirstLatest db lectureId))

/-- JS truthiness of an optional string request field: undefined and the
empty string are falsy. -/
def truthyStr : Option String → Bool
  | none => false
  | some s => s ≠ ""

/-- The parsed body of a POST /api/lectures/:lectureId/summary request. -/
structure PostBody where
  transcription : Option String
  transcriptionJsonUrl : Option String

/-- The data the POST handler closes over when it schedules the setImmediate
job: the lecture id and the two body fields. -/
structure ScheduledJob where
  lectureId : String
  transcription : Option String
  transcriptionJsonUrl : Option String

/-- Embedding of the POST /api/lectures/:lectureId/summary handler: if both
body fields are falsy answer 400 and schedule nothing, otherwise schedule
the setImmediate job and answer 202. -/
def postSummaryHandler (lectureId : String) (body : PostBody) :
    ApiResponse × Option ScheduledJob :=
  if !truthyStr body.transcription && !truthyStr body.transcriptionJsonUrl then
    (⟨400, .obj [("error", .str "Missing transcription or transcriptionJsonUrl in request body")]⟩,
     none)
  else
    (⟨202, .obj [("message", .str "Summary generation started")]⟩,
     some ⟨lectureId, body.transcription, body.transcriptionJsonUrl⟩)

/-- Embedding of saveSummary(lectureId, summaryText): one
prisma.summary.create call whose outcome the store oracle decides. -/
def saveSummary (env : Env) (lectureId summaryText : Option Json) :
    List Effect × Except JsErr Unit :=
  ([Effect.save lectureId summaryText], env.saveResult lectureId summaryText)

/-- The try block of the setImmediate job scheduled by the POST handler: if
the inline transcription is falsy, log and fetch the transcript URL; then
log and summarize; then log and save.  The Except.error result is the
exception reaching the catch. -/
def httpJobTry (env : Env) (j : ScheduledJob) : List Effect × Except JsErr Unit :=
  let resolved :=
    if truthyStr j.transcription then
      (([] : List Effect), Except.ok (j.transcription.getD ""))
    else
      let fi := Effect.logInfo ("Fetching transcription JSON from " ++
        jsDisplay (j.transcriptionJsonUrl.map Json.str))
      let fr := retrieveJsonTranscription env (j.transcriptionJsonUrl.map Json.str)
      (fi :: fr.1, fr.2)
  match resolved with
  | (effs1, .error e) => (effs1, .error e)
  | (effs1, .ok transcription) =>
    let gi := Effect.logInfo ("Generating summary for lecture " ++ j.lectureId)
    let gr := generateSummary env transcription
    match gr.2 with
    | .error e => (effs1 ++ gi :: gr.1, .error e)
    | .ok content =>
      let si := Effect.logInfo ("Saving summary for lecture " ++ j.lectureId)
      let sr := saveSummary env (some (.str j.lectureId)) content
      match sr.2 with
      | .error e => (effs1 ++ gi :: gr.1 ++ si :: sr.1, .error e)
      | .ok _ => (effs1 ++ gi :: gr.1 ++ si :: sr.1, .ok ())

/-- The whole setImmediate job: any exception from the try block is caught
and logged with the lecture id (in scope here, unlike in the bus handler)
and the error object; nothing propagates to the HTTP caller. -/
def runHttpJob (env : Env) (j : ScheduledJob) : List Effect :=
  match httpJobTry env j with
  | (effs, .ok _) => effs
  | (effs, .error e) =>
    effs ++ [Effect.logError (some e)
      ("Failed to generate or save summary for lecture " ++ j.lectureId)]

/-- Embedding of the "transcriptions.completed" handler: read lecture_id and
transcription_json_url off the decoded message, log, fetch, summarize, save.
The catch block evaluates a template literal referencing lectureId, but that
const is block-scoped to the try block, so the catch itself throws
ReferenceError before logger.error can run; the handler therefore rethrows
instead of logging whenever any step fails. -/
def transcriptionsCompletedHandler (env : Env) (data : Json) :
    List Effect × Except JsErr Unit :=
  let catchBlock : JsErr → List Effect × Except JsErr Unit := fun _ =>
    ([], .error (.referenceError "lectureId is not defined"))
  match jsGet data "lecture_id" with
  | .error e => catchBlock e
  | .ok lectureId =>
    match jsGet data "transcription_json_url" with
    | .error e => catchBlock e
    | .ok url =>
      let ri := Effect.logInfo ("Received transcription completed message for lecture " ++
        jsDisplay lectureId)
      let fr := retrieveJsonTranscription env url
      match fr.2 with
      | .error e => (ri :: fr.1 ++ (catchBlock e).1, (catchBlock e).2)
      | .ok transcription =>
        let gr := generateSummary env transcription
        match gr.2 with
        | .error e => (ri :: fr.1 ++ gr.1 ++ (catchBlock e).1, (catchBlock e).2)
        | .ok content =>
          let sr := saveSummary env lectureId content
          match sr.2 with
          | .error e => (ri :: fr.1 ++ gr.1 ++ sr.1 ++ (catchBlock e).1, (catchBlock e).2)
          | .ok _ =>
            (ri :: fr.1 ++ gr.1 ++ sr.1 ++
              [Effect.logInfo ("Summary generated and saved for lecture " ++
                jsDisplay lectureId)], .ok ())

/-- Embedding of the message loop inside subscribeJson from src/summary.js.
Each message is given with its jc.decode outcome.  The decode runs outside
the per-message try, so a decode failure escapes the loop: processing stops,
nothing is logged, and the remaining messages are never handled (the second
component is the escaped error).  A handler exception is caught and logged
per message and the loop continues. -/
def subscribeJsonLoop (subject : String)
    (handler : Json → List Effect × Except JsErr Unit) :
    List (Except String Json) → List Effect × Option JsErr
  | [] => ([], none)
  | (Except.error m) :: _ => ([], some (JsErr.parseError m))
  | (Except.ok data) :: rest =>
    let hr := handler data
    let tl := subscribeJsonLoop subject handler rest
    match hr.2 with
    | .ok _ => (hr.1 ++ tl.1, tl.2)
    | .error e =>
      (hr.1 ++ Effect.logError none
        ("Error handling message on subject " ++ subject ++ ": " ++ e.message) :: tl.1,
       tl.2)

/-- Full characterisation of the findFirst model: on an empty list it is
none, otherwise it returns a listed row whose timestamp is maximal. -/
lemma latestRow_spec (xs : List SummaryRow) :
    (xs = [] ∧ latestRow xs = none) ∨
    (∃ b, latestRow xs = some b ∧ b ∈ xs ∧ ∀ s ∈ xs, s.timestamp ≤ b.timestamp) := by
  induction xs with
  | nil => exact Or.inl ⟨rfl, rfl⟩
  | cons r rs ih =>
    right
    rcases ih with ⟨hnil, _⟩ | ⟨b, hb, hmem, hmax⟩
    · subst hnil
      refine ⟨r, by simp [latestRow], by simp, ?_⟩
      intro s hs
      simp at hs
      simp [hs]
    · by_cases hlt : b.timestamp > r.timestamp
      · refine ⟨b, by simp [latestRow, hb, hlt], List.mem_cons_of_mem r hmem, ?_⟩
        intro s hs
        rcases List.mem_cons.mp hs with h | h
        · subst h; omega
        · exact hmax s h
      · refine ⟨r, by simp [latestRow, hb, hlt], List.mem_cons_self r rs, ?_⟩
        intro s hs
        rcases List.mem_cons.mp hs with h | h
        · subst h; exact Nat.le_refl _
        · have := hmax s h; omega

/-- C1: for every lecture id, the HTTP read path answers 404 exactly when no
Summary row with that lecture_id is stored, and otherwise answers 200 with
the summary_text of a stored row carrying the greatest timestamp among the
rows sharing that lecture_id. -/
theorem getSummary_latest_spec (db : List SummaryRow) (lid : String) :
    (db.filter (fun r => r.lecture_id == lid) = [] →
      getSummary db lid = ⟨404, .obj [("error", .str "Summary not found")]⟩)
    ∧ (∀ r ∈ db, r.lecture_id = lid →
      ∃ best ∈ db, best.lecture_id = lid ∧
        (∀ s ∈ db, s.lecture_id = lid → s.timestamp ≤ best.timestamp) ∧
        getSummary db lid = ⟨200, .obj [("summary", .str best.summary_text)]⟩) := by
  constructor
  · intro h
    simp [getSummary, prismaFindFirstLatest, h, latestRow, getSummaryHandler]
  · intro r hr hlid
    have hmem : r ∈ db.filter (fun x => x.lecture_id == lid) :=
      List.mem_filter.mpr ⟨hr, by simp [hlid]⟩
    rcases latestRow_spec (db.filter (fun x => x.lecture_id == lid)) with ⟨hnil, _⟩ | ⟨b, hb, hbm, hbmax⟩
    · rw [hnil] at hmem; simp at hmem
    · have hbf := List.mem_filter.mp hbm
      refine ⟨b, hbf.1, by simpa using hbf.2, ?_, ?_⟩
      · intro s hs hslid
        exact hbmax s (List.mem_filter.mpr ⟨hs, by simp [hslid]⟩)
      · simp [getSummary, prismaFindFirstLatest, hb, getSummaryHandler]

/-- Witness for C1 at a concrete store with two rows for the same lecture. -/
theorem getSummary_latest_witness :
    ∃ best ∈ [SummaryRow.mk "a" "L1" "s1" 1, SummaryRow.mk "b" "L1" "s2" 2],
      best.lecture_id = "L1" ∧
      (∀ s ∈ [SummaryRow.mk "a" "L1" "s1" 1, SummaryRow.mk "b" "L1" "s2" 2],
        s.lecture_id = "L1" → s.timestamp ≤ best.timestamp) ∧
      getSummary [SummaryRow.mk "a" "L1" "s1" 1, SummaryRow.mk "b" "L1" "s2" 2] "L1" =
        ⟨200, .obj [("summary", .str best.summary_text)]⟩ :=
  (getSummary_latest_spec [SummaryRow.mk "a" "L1" "s1" 1, SummaryRow.mk "b" "L1" "s2" 2] "L1").2
    (SummaryRow.mk "a" "L1" "s1" 1) (by simp) rfl

/-- Counterexample for C2: a request whose transcription field is present
but holds the empty string (and has no transcriptionJsonUrl) is answered
400 with no job scheduled, although the claim requires 202 with a scheduled
job whenever at least one of the two body fields is present. -/
theorem postSummary_present_counterexample :
    postSummaryHandler "L1" ⟨some "", none⟩ =
      (⟨400, .obj [("error", .str "Missing transcription or transcriptionJsonUrl in request body")]⟩,
       none)
    ∧ (postSummaryHandler "L1" ⟨some "", none⟩).1.status ≠ 202 :=
  ⟨rfl, by decide⟩

/-- C2 as amended: the POST handler answers 202 and schedules the job
exactly when at least one of the two body fields is present with a truthy
(non-empty) value, and otherwise answers 400 and schedules nothing. -/
theorem postSummary_truthy_spec (lid : String) (body : PostBody) :
    ((truthyStr body.transcription = true ∨ truthyStr body.transcriptionJsonUrl = true) →
      postSummaryHandler lid body =
        (⟨202, .obj [("message", .str "Summary generation started")]⟩,
         some ⟨lid, body.transcription, body.transcriptionJsonUrl⟩))
    ∧ (truthyStr body.transcription = false → truthyStr body.transcriptionJsonUrl = false →
      postSummaryHandler lid body =
        (⟨400, .obj [("error", .str "Missing transcription or transcriptionJsonUrl in request body")]⟩,
         none)) := by
  constructor
  · intro h
    rcases h with h | h <;> simp [postSummaryHandler, h]
  · intro h1 h2
    simp [postSummaryHandler, h1, h2]

/-- Witness for the amended C2 at a request with a non-empty transcription. -/
theorem postSummary_truthy_witness :
    postSummaryHandler "L1" ⟨some "hello", none⟩ =
      (⟨202, .obj [("message", .str "Summary generation started")]⟩,
       some ⟨"L1", some "hello", none⟩) :=
  (postSummary_truthy_spec "L1" ⟨some "hello", none⟩).1 (Or.inl (by decide))

/-- The effect list of generateSummary is the summarizer call alone, or the
summarizer call followed by the API-error log line. -/
lemma generateSummary_effects (env : Env) (t : String) :
    (generateSummary env t).1 = [Effect.summarizerCall t] ∨
    ∃ st sx, (generateSummary env t).1 =
      [Effect.summarizerCall t, Effect.logError none (summarizerApiErrorMessage st sx)] := by
  unfold generateSummary
  cases hr : env.summarizerResp t with
  | error e => exact Or.inl rfl
  | ok resp =>
    by_cases hok : resp.ok
    · cases hb : resp.jsonBody with
      | error m => simp [hok, hb]
      | ok data => simp [hok, hb]
    · simp only [hok]
      exact Or.inr ⟨resp.status, resp.statusText, by simp⟩

/-- generateSummary performs no transcript fetch. -/
lemma generateSummary_no_fetch (env : Env) (t u : String) :
    Effect.fetch u ∉ (generateSummary env t).1 := by
  rcases generateSummary_effects env t with h | ⟨st, sx, h⟩ <;> simp [h]

/-- generateSummary always performs its endpoint call with the transcript it
was handed. -/
lemma generateSummary_call_mem (env : Env) (t : String) :
    Effect.summarizerCall t ∈ (generateSummary env t).1 := by
  rcases generateSummary_effects env t with h | ⟨st, sx, h⟩ <;> simp [h]

/-- Trace of the setImmediate job when the inline transcription is truthy:
it starts with the generation log line and the summarizer call on the
inline text itself, and the remaining effects never include a fetch. -/
lemma runHttpJob_inline_trace (env : Env) (lid t : String) (url : Option String)
    (ht : t ≠ "") :
    ∃ tail, runHttpJob env ⟨lid, some t, url⟩ =
      Effect.logInfo ("Generating summary for lecture " ++ lid) ::
        ((generateSummary env t).1 ++ tail) ∧
      ∀ u, Effect.fetch u ∉ tail := by
  have htr : truthyStr (some t) = true := by simp [truthyStr, ht]
  unfold runHttpJob httpJobTry
  simp only [htr, if_true, Option.getD_some]
  cases hg : (generateSummary env t).2 with
  | error e =>
    refine ⟨[Effect.logError (some e)
      ("Failed to generate or save summary for lecture " ++ lid)], ?_, by simp⟩
    simp [hg]
  | ok content =>
    cases hs : env.saveResult (some (.str lid)) content with
    | error e =>
      refine ⟨[Effect.logInfo ("Saving summary for lecture " ++ lid),
        Effect.save (some (.str lid)) content,
        Effect.logError (some e)
          ("Failed to generate or save summary for lecture " ++ lid)], ?_, by simp⟩
      simp [hg, saveSummary, hs]
    | ok _ =>
      refine ⟨[Effect.logInfo ("Saving summary for lecture " ++ lid),
        Effect.save (some (.str lid)) content], ?_, by simp⟩
      simp [hg, saveSummary, hs]

/-- Shared consequence of the inline-truthy trace: no transcript fetch is
performed and the summarizer receives the inline text unchanged. -/
lemma runHttpJob_inline_props (env : Env) (lid t : String) (url : Option String)
    (ht : t ≠ "") :
    (∀ u, Effect.fetch u ∉ runHttpJob env ⟨lid, some t, url⟩)
    ∧ Effect.summarizerCall t ∈ runHttpJob env ⟨lid, some t, url⟩ := by
  obtain ⟨tail, htr, hnf⟩ := runHttpJob_inline_trace env lid t url ht
  constructor
  · intro u
    rw [htr]
    simp only [List.mem_cons, List.mem_append]
    push_neg
    exact ⟨by simp, generateSummary_no_fetch env t u, hnf u⟩
  · rw [htr]
    exact List.mem_cons_of_mem _ (List.mem_append_left _ (generateSummary_call_mem env t))

/-- A transcript environment whose URL fetch yields one segment "x" and
whose summarizer fetch rejects, isolating the resolver behaviour. -/
def envInline : Env :=
  { fetchTranscript := fun _ => .ok ⟨200, "OK", .ok (.arr [.obj [("text", .str "x")]])⟩,
    summarizerResp := fun _ => .error (.typeError "fetch failed"),
    saveResult := fun _ _ => .ok () }

/-- Counterexample for C4: a job whose transcript is supplied inline as the
empty string (with a URL also present, so validation passes) does fetch the
URL, and the summarizer receives the fetched text "x" rather than the
inline text; the claim requires no fetch for any inline-supplied job. -/
theorem inline_empty_fetch_counterexample :
    runHttpJob envInline ⟨"L1", some "", some "https://e/t.json"⟩ =
      [Effect.logInfo "Fetching transcription JSON from https://e/t.json",
       Effect.fetch "https://e/t.json",
       Effect.logInfo "Generating summary for lecture L1",
       Effect.summarizerCall "x",
       Effect.logError (some (.typeError "fetch failed"))
         "Failed to generate or save summary for lecture L1"]
    ∧ Effect.fetch "https://e/t.json" ∈
        runHttpJob envInline ⟨"L1", some "", some "https://e/t.json"⟩ := by
  refine ⟨rfl, ?_⟩
  exact List.Mem.tail _ (List.Mem.head _)

/-- C4 as amended: for every job whose inline transcription is truthy
(non-empty), no network fetch for the transcript is performed and the
summarizer is called on the inline text unchanged. -/
theorem runHttpJob_inline_spec (env : Env) (lid t : String) (url : Option String)
    (ht : t ≠ "") :
    (∀ u, Effect.fetch u ∉ runHttpJob env ⟨lid, some t, url⟩)
    ∧ Effect.summarizerCall t ∈ runHttpJob env ⟨lid, some t, url⟩ :=
  runHttpJob_inline_props env lid t url ht

/-- Witness for the amended C4 at a concrete inline job. -/
theorem runHttpJob_inline_witness :
    Effect.fetch "https://e/t.json" ∉ runHttpJob envInline ⟨"L1", some "hello", none⟩
    ∧ Effect.summarizerCall "hello" ∈ runHttpJob envInline ⟨"L1", some "hello", none⟩ :=
  ⟨(runHttpJob_inline_spec envInline "L1" "hello" none (by decide)).1 "https://e/t.json",
   (runHttpJob_inline_spec envInline "L1" "hello" none (by decide)).2⟩

/-- The resolver performs exactly one fetch of a string URL, whatever the
response. -/
lemma retrieveJson_fetch_effect (env : Env) (u : String) :
    (retrieveJsonTranscription env (some (.str u))).1 = [Effect.fetch u] := by
  cases hf : env.fetchTranscript u with
  | error e => simp [retrieveJsonTranscription, hf]
  | ok resp =>
    by_cases hok : resp.ok
    · cases hb : resp.jsonBody with
      | error m => simp [retrieveJsonTranscription, hf, hok, hb]
      | ok data =>
        cases data <;> simp [retrieveJsonTranscription, hf, hok, hb]
        split <;> simp
    · simp [retrieveJsonTranscription, hf, hok]

/-- When the inline transcription is falsy, the job fetches the URL. -/
lemma runHttpJob_falsy_fetch (env : Env) (lid u : String) (tr : Option String)
    (htr : truthyStr tr = false) :
    Effect.fetch u ∈ runHttpJob env ⟨lid, tr, some u⟩ := by
  unfold runHttpJob httpJobTry
  simp only [htr, Bool.false_eq_true, if_false, Option.map_some', retrieveJson_fetch_effect env u]
  cases hg : (retrieveJsonTranscription env (some (.str u))).2 with
  | error e => simp [hg]
  | ok transcription =>
    simp only [hg]
    cases hs : (generateSummary env transcription).2 with
    | error e => simp [hs]
    | ok content =>
      cases hv : env.saveResult (some (.str lid)) content with
      | error e => simp [hs, saveSummary, hv]
      | ok _ => simp [hs, saveSummary, hv]

/-- C10: the POST presence check is falsiness-based.  An empty-string
transcription with no URL is answered 400 with no job, as if the field were
absent; when both fields are given, a truthy inline transcription is used
(the summarizer receives it and no fetch happens) and the URL is fetched
exactly when the inline transcription is falsy. -/
theorem postSummary_falsiness_spec (env : Env) (lid t u : String) (ht : t ≠ "") :
    (postSummaryHandler lid ⟨some "", none⟩ =
      (⟨400, .obj [("error", .str "Missing transcription or transcriptionJsonUrl in request body")]⟩,
       none))
    ∧ ((∀ v, Effect.fetch v ∉ runHttpJob env ⟨lid, some t, some u⟩)
       ∧ Effect.summarizerCall t ∈ runHttpJob env ⟨lid, some t, some u⟩)
    ∧ Effect.fetch u ∈ runHttpJob env ⟨lid, some "", some u⟩ := by
  refine ⟨rfl, runHttpJob_inline_props env lid t (some u) ht, ?_⟩
  exact runHttpJob_falsy_fetch env lid u (some "") rfl

/-- Witness for C10 at a concrete env, lecture and URL. -/
theorem postSummary_falsiness_witness :
    (postSummaryHandler "L1" ⟨some "", none⟩ =
      (⟨400, .obj [("error", .str "Missing transcription or transcriptionJsonUrl in request body")]⟩,
       none))
    ∧ ((∀ v, Effect.fetch v ∉ runHttpJob envInline ⟨"L1", some "hello", some "https://e/t.json"⟩)
       ∧ Effect.summarizerCall "hello" ∈
           runHttpJob envInline ⟨"L1", some "hello", some "https://e/t.json"⟩)
    ∧ Effect.fetch "https://e/t.json" ∈
        runHttpJob envInline ⟨"L1", some "", some "https://e/t.json"⟩ :=
  postSummary_falsiness_spec envInline "L1" "hello" "https://e/t.json" (by decide)

/-- Pointwise success of the mapped text extraction: when every entry's text
field reads as a string, the source map equation determines mapTexts. -/
lemma mapTexts_of_map {entries : List Json} {texts : List String}
    (h : entries.map (fun e => jsGet e "text") =
      texts.map (fun s => Except.ok (some (Json.str s)))) :
    mapTexts entries = .ok (texts.map (fun s => some (Json.str s))) := by
  induction entries generalizing texts with
  | nil =>
    cases texts with
    | nil => rfl
    | cons t ts => simp at h
  | cons e es ih =>
    cases texts with
    | nil => simp at h
    | cons t ts =>
      simp only [List.map_cons, List.cons.injEq] at h
      simp [mapTexts, h.1, ih h.2]

/-- C5: a transcript URL whose fetch succeeds with a JSON array of objects
whose text fields are the strings texts, in order, resolves to the texts
joined by newlines, after exactly one fetch. -/
theorem retrieveJson_join_spec (env : Env) (u : String) (resp : FetchResponse)
    (entries : List Json) (texts : List String)
    (hf : env.fetchTranscript u = .ok resp) (hok : resp.ok = true)
    (hb : resp.jsonBody = .ok (.arr entries))
    (ht : entries.map (fun e => jsGet e "text") =
      texts.map (fun s => Except.ok (some (Json.str s)))) :
    retrieveJsonTranscription env (some (.str u)) =
      ([Effect.fetch u], .ok (String.intercalate "\n" texts)) := by
  have hm := mapTexts_of_map ht
  simp only [retrieveJsonTranscription, hf, hok, if_true, hb, hm]
  have : ∀ ts : List String, (ts.map (fun s => some (Json.str s))).map joinElemStr = ts := by
    intro ts
    induction ts with
    | nil => rfl
    | cons a l ih => simp only [List.map_cons, ih, List.cons.injEq, and_true]; rfl
  rw [this]

/-- Witness for C5: the array with text fields "a" and "b" resolves to the
two segments separated by one newline. -/
theorem retrieveJson_join_witness :
    retrieveJsonTranscription
      { fetchTranscript := fun _ =>
          .ok ⟨200, "OK", .ok (.arr [.obj [("text", .str "a")], .obj [("text", .str "b")]])⟩,
        summarizerResp := fun _ => .error (.typeError "fetch failed"),
        saveResult := fun _ _ => .ok () } (some (.str "https://t/x.json")) =
      ([Effect.fetch "https://t/x.json"], .ok "a\nb") :=
  retrieveJson_join_spec _ "https://t/x.json" _
    [.obj [("text", .str "a")], .obj [("text", .str "b")]] ["a", "b"] rfl rfl rfl rfl

/-- An environment whose transcript fetch succeeds with the given JSON body
and whose summarizer fetch rejects, so the trace shows how far a job got. -/
def envOfTranscript (j : Json) : Env :=
  { fetchTranscript := fun _ => .ok ⟨200, "OK", .ok j⟩,
    summarizerResp := fun _ => .error (.typeError "fetch failed"),
    saveResult := fun _ _ => .ok () }

/-- Counterexample for C6: a fetched body that is the empty JSON array does
not make resolution fail; it resolves to the empty string and the job goes
on to call the summarizer with it, while the claim requires the job to
abort with an error before reaching the summarizer. -/
theorem retrieveJson_empty_counterexample :
    retrieveJsonTranscription (envOfTranscript (.arr [])) (some (.str "https://t/x.json")) =
      ([Effect.fetch "https://t/x.json"], .ok "")
    ∧ runHttpJob (envOfTranscript (.arr [])) ⟨"L1", none, some "https://t/x.json"⟩ =
      [Effect.logInfo "Fetching transcription JSON from https://t/x.json",
       Effect.fetch "https://t/x.json",
       Effect.logInfo "Generating summary for lecture L1",
       Effect.summarizerCall "",
       Effect.logError (some (.typeError "fetch failed"))
         "Failed to generate or save summary for lecture L1"] :=
  ⟨rfl, rfl⟩

/-- C6 as amended: an empty source array or elements lacking a text field do
not fail resolution.  Whenever mapping the text fields off the entries does
not itself throw (in particular for any array of non-null objects, with or
without text fields), resolution succeeds with the newline join in which a
missing text field contributes the empty string; the empty array yields the
empty transcript. -/
theorem retrieveJson_lenient_spec (env : Env) (u : String) (resp : FetchResponse)
    (entries : List Json) (opts : List (Option Json))
    (hf : env.fetchTranscript u = .ok resp) (hok : resp.ok = true)
    (hb : resp.jsonBody = .ok (.arr entries))
    (hm : mapTexts entries = .ok opts) :
    retrieveJsonTranscription env (some (.str u)) =
      ([Effect.fetch u], .ok (String.intercalate "\n" (opts.map joinElemStr))) := by
  simp only [retrieveJsonTranscription, hf, hok, if_true, hb, hm]

/-- Witness for the amended C6: a singleton array whose element has no text
field resolves to the empty string. -/
theorem retrieveJson_lenient_witness :
    retrieveJsonTranscription (envOfTranscript (.arr [.obj [("other", .num 1)]]))
      (some (.str "https://t/x.json")) =
      ([Effect.fetch "https://t/x.json"], .ok "") :=
  retrieveJson_lenient_spec _ "https://t/x.json" _ [.obj [("other", .num 1)]] [none]
    rfl rfl rfl rfl

/-- An environment whose summarizer endpoint answers 200 with the given JSON
body, isolating the response-shape handling of generateSummary. -/
def envOfSummarizerBody (j : Json) : Env :=
  { fetchTranscript := fun _ => .error (.typeError "fetch failed"),
    summarizerResp := fun _ => .ok ⟨200, "OK", .ok j⟩,
    saveResult := fun _ _ => .ok () }

/-- Counterexample for C7: a 2xx body whose choices array holds one choice
that lacks a message makes generateSummary throw a TypeError instead of
returning the content of the first choice's message, although the body does
contain at least one choice. -/
theorem generateSummary_choice_counterexample :
    generateSummary (envOfSummarizerBody (.obj [("choices", .arr [.obj []])])) "t" =
      ([Effect.summarizerCall "t"],
       .error (.typeError "Cannot read properties of undefined reading content")) :=
  rfl

/-- Property reads on a proper JSON value only ever throw TypeErrors. -/
lemma jsGet_error_typeError {j : Json} {k : String} {e : JsErr}
    (h : jsGet j k = .error e) : ∃ m, e = .typeError m := by
  cases j <;> simp [jsGet] at h
  exact ⟨_, h.symm⟩

/-- Property reads on a possibly-undefined value only ever throw
TypeErrors. -/
lemma jsGetOpt_error_typeError {j : Option Json} {k : String} {e : JsErr}
    (h : jsGetOpt j k = .error e) : ∃ m, e = .typeError m := by
  cases j with
  | none => simp [jsGetOpt] at h; exact ⟨_, h.symm⟩
  | some j => exact jsGet_error_typeError h

/-- Index reads on a possibly-undefined value only ever throw TypeErrors. -/
lemma jsIndexOpt_error_typeError {j : Option Json} {n : Nat} {e : JsErr}
    (h : jsIndexOpt j n = .error e) : ∃ m, e = .typeError m := by
  cases j with
  | none => simp [jsIndexOpt] at h; exact ⟨_, h.symm⟩
  | some j =>
    cases j <;> simp [jsIndexOpt] at h
    exact ⟨_, h.symm⟩

/-- Every failure of the choices chain is a TypeError. -/
lemma choicesContent_error_typeError {data : Json} {e : JsErr}
    (h : choicesContent data = .error e) : ∃ m, e = .typeError m := by
  unfold choicesContent at h
  split at h
  · cases h; exact jsGet_error_typeError (by assumption)
  · split at h
    · cases h; exact jsIndexOpt_error_typeError (by assumption)
    · split at h
      · cases h; exact jsGetOpt_error_typeError (by assumption)
      · exact jsGetOpt_error_typeError h

/-- C7 as amended: on a 2xx summarizer response, when the body's choices
resolve to a first choice carrying a message, the returned summary is that
message's content field (undefined when the field is absent); every failure
on a 2xx response is of the SummarizerFormatError kind (never the API-error
kind); and a body with no choices key does fail. -/
theorem generateSummary_2xx_spec (env : Env) (t : String) (resp : FetchResponse)
    (hr : env.summarizerResp t = .ok resp) (hok : resp.ok = true) :
    (∀ data choices first msg cval,
       resp.jsonBody = .ok data →
       jsGet data "choices" = .ok (some choices) →
       jsIndexOpt (some choices) 0 = .ok (some first) →
       jsGet first "message" = .ok (some msg) →
       jsGet msg "content" = .ok cval →
       generateSummary env t = ([Effect.summarizerCall t], .ok cval))
    ∧ (∀ e, (generateSummary env t).2 = .error e → isSummarizerFormatError e = true)
    ∧ (∀ data, resp.jsonBody = .ok data → jsGet data "choices" = .ok none →
       (generateSummary env t).2 =
         .error (.typeError "Cannot read properties of undefined reading index")) := by
  refine ⟨?_, ?_, ?_⟩
  · intro data choices first msg cval hb hch hidx hmsg hcnt
    simp [generateSummary, hr, hok, hb, choicesContent, hch, hidx, jsGetOpt, hmsg, hcnt]
  · intro e he
    cases hb : resp.jsonBody with
    | error m =>
      simp [generateSummary, hr, hok, hb] at he
      simp [← he, isSummarizerFormatError]
    | ok data =>
      simp [generateSummary, hr, hok, hb] at he
      obtain ⟨m, hm⟩ := choicesContent_error_typeError he
      simp [hm, isSummarizerFormatError]
  · intro data hb hch
    simp [generateSummary, hr, hok, hb, choicesContent, hch, jsIndexOpt]

/-- Witness for the amended C7 at a well-formed chat-completion body. -/
theorem generateSummary_2xx_witness :
    generateSummary
      (envOfSummarizerBody
        (.obj [("choices", .arr [.obj [("message", .obj [("content", .str "A summary.")])]])]))
      "t" =
      ([Effect.summarizerCall "t"], .ok (some (.str "A summary."))) :=
  (generateSummary_2xx_spec
      (envOfSummarizerBody
        (.obj [("choices", .arr [.obj [("message", .obj [("content", .str "A summary.")])]])]))
      "t" _ rfl rfl).1
    _ _ _ _ _ rfl rfl rfl rfl rfl

/-- C8: a non-2xx summarizer response makes generateSummary log the API
error, with status code and reason phrase, and then throw an error carrying
the same status code and reason phrase; the log effect precedes the
surfaced error. -/
theorem generateSummary_api_error_spec (env : Env) (t : String) (resp : FetchResponse)
    (hr : env.summarizerResp t = .ok resp) (hok : resp.ok = false) :
    generateSummary env t =
      ([Effect.summarizerCall t,
        Effect.logError none (summarizerApiErrorMessage resp.status resp.statusText)],
       .error (summarizerApiError resp.status resp.statusText)) := by
  simp [generateSummary, hr, hok]

/-- Witness for C8 at a concrete 503 response. -/
theorem generateSummary_api_error_witness :
    generateSummary
      { fetchTranscript := fun _ => .error (.typeError "fetch failed"),
        summarizerResp := fun _ => .ok ⟨503, "Service Unavailable", .ok .null⟩,
        saveResult := fun _ _ => .ok () } "t" =
      ([Effect.summarizerCall "t",
        Effect.logError none "Hugging Face API error: 503 Service Unavailable"],
       .error (.error "Hugging Face API error: 503 Service Unavailable")) :=
  generateSummary_api_error_spec _ "t" ⟨503, "Service Unavailable", .ok .null⟩ rfl rfl

/-- A bus-side environment whose transcript fetch answers 404 with a
non-JSON body, so every bus job fails at the first step. -/
def envBusFail : Env :=
  { fetchTranscript := fun _ => .ok ⟨404, "Not Found", .error "no body"⟩,
    summarizerResp := fun _ => .error (.typeError "fetch failed"),
    saveResult := fun _ _ => .ok () }

/-- A well-formed transcriptions.completed payload for lecture L1. -/
def busMsg : Json :=
  .obj [("lecture_id", .str "L1"), ("transcription_json_url", .str "https://t/x.json")]

/-- C3 at its failing input: a bus-triggered job whose transcript fetch
fails.  The remaining steps are skipped and no row is saved, but the catch
block's template literal references lectureId, which is const-scoped to the
try block, so the catch throws ReferenceError before logger.error runs: the
handler rethrows, and the only log line the subscription loop then emits is
its generic per-subject message, carrying neither the lecture id nor the
underlying fetch error. -/
theorem bus_catch_reference_error_eval :
    transcriptionsCompletedHandler envBusFail busMsg =
      ([Effect.logInfo "Received transcription completed message for lecture L1",
        Effect.fetch "https://t/x.json"],
       .error (.referenceError "lectureId is not defined"))
    ∧ subscribeJsonLoop "transcriptions.completed"
        (transcriptionsCompletedHandler envBusFail) [Except.ok busMsg] =
      ([Effect.logInfo "Received transcription completed message for lecture L1",
        Effect.fetch "https://t/x.json",
        Effect.logError none
          "Error handling message on subject transcriptions.completed: lectureId is not defined"],
       none) :=
  ⟨rfl, rfl⟩

/-- Counterexample for C9: a message whose payload fails JSON decoding is
neither caught nor logged, and it stops the loop, so the well-formed second
message is never handled; the claim requires decode failures to be caught,
logged and discarded without stopping the loop. -/
theorem decode_failure_counterexample :
    subscribeJsonLoop "transcriptions.completed"
      (transcriptionsCompletedHandler envBusFail)
      [Except.error "Unexpected token", Except.ok busMsg] =
      ([], some (.parseError "Unexpected token")) :=
  rfl

/-- C9 as amended: a handler exception on a decoded message is caught and
logged per message and the loop then processes the remaining messages
exactly as it would have alone; but a decode failure escapes the
per-message catch and terminates the loop with nothing logged and the
remaining messages unprocessed. -/
theorem subscription_loop_spec (subject : String)
    (handler : Json → List Effect × Except JsErr Unit) (d : Json)
    (rest : List (Except String Json)) :
    (∃ pre, subscribeJsonLoop subject handler (Except.ok d :: rest) =
      (pre ++ (subscribeJsonLoop subject handler rest).1,
       (subscribeJsonLoop subject handler rest).2))
    ∧ (∀ m, subscribeJsonLoop subject handler (Except.error m :: rest) =
      ([], some (.parseError m))) := by
  constructor
  · cases hh : (handler d).2 with
    | ok _ => exact ⟨(handler d).1, by simp [subscribeJsonLoop, hh]⟩
    | error e =>
      refine ⟨(handler d).1 ++ [Effect.logError none
        ("Error handling message on subject " ++ subject ++ ": " ++ e.message)], ?_⟩
      simp [subscribeJsonLoop, hh]
  · intro m
    rfl

/-- Witness for the amended C9: one failing-handler message followed by one
more message, at the concrete bus environment. -/
theorem subscription_loop_witness :
    (∃ pre, subscribeJsonLoop "transcriptions.completed"
        (transcriptionsCompletedHandler envBusFail) (Except.ok busMsg :: [Except.ok busMsg]) =
      (pre ++ (subscribeJsonLoop "transcriptions.completed"
        (transcriptionsCompletedHandler envBusFail) [Except.ok busMsg]).1,
       (subscribeJsonLoop "transcriptions.completed"
        (transcriptionsCompletedHandler envBusFail) [Except.ok busMsg]).2))
    ∧ (∀ m, subscribeJsonLoop "transcriptions.completed"
        (transcriptionsCompletedHandler envBusFail) (Except.error m :: [Except.ok busMsg]) =
      ([], some (.parseError m))) :=
  subscription_loop_spec "transcriptions.completed"
    (transcriptionsCompletedHandler envBusFail) busMsg [Except.ok busMsg]
